import Mathlib

/-!
Verification of the Desktop Agent planner and execution pipeline.

Shallow embedding of:
  - src/packages/common/models.py   (data model)
  - src/packages/planner/guardrails.py  (GuardrailsEngine, RateLimitRule)
  - src/packages/planner/plan_generator.py  (PlanGenerator)
  - src/packages/planner/planner_manager.py (PlannerManager)
  - src/apps/agent/services.py      (AgentService execution loop)

Python machine floats are modelled as rationals; dictionaries keyed by
strings are modelled as association lists in insertion order.
-/

namespace DesktopAgent

/-- Intent types, from models.py `IntentType`. -/
inductive IntentType where
  | open_app | focus_app | click_text | type_text
  | save_file | web_search | write_text_file | unknown
deriving DecidableEq

/-- Primitive action types, from models.py `ActionType`. -/
inductive ActionType where
  | move_mouse | click | double_click | right_click | type_text
  | key_press | hotkey | scroll | wait | screenshot
deriving DecidableEq

/-- Python values stored in parameter / slot dictionaries. -/
inductive PValue where
  | str (s : String)
  | num (q : ℚ)
  | boolean (b : Bool)
  | dict (entries : List (String × PValue))

/-- A Python dict with string keys, in insertion order. -/
abbrev Params := List (String × PValue)

/-- Dictionary lookup (`d.get(k)` / `k in d`). -/
def Params.get? (p : Params) (k : String) : Option PValue :=
  List.lookup k p

/-- Lookup of a string value with a default (`d.get(k, default)`). -/
def Params.getStr (p : Params) (k : String) (dflt : String) : String :=
  match p.get? k with
  | some (PValue.str s) => s
  | _ => dflt

/-- Lookup of a numeric value with a default (`d.get(k, default)`). -/
def Params.getNum (p : Params) (k : String) (dflt : ℚ) : ℚ :=
  match p.get? k with
  | some (PValue.num q) => q
  | _ => dflt

/-- Python dict assignment `d[k] = v`: overwrite in place, or append a new key. -/
def Params.set (p : Params) (k : String) (v : PValue) : Params :=
  if (p.get? k).isSome then
    p.map (fun kv => if kv.1 = k then (k, v) else kv)
  else
    p ++ [(k, v)]

/-- The string rendering `str(value)` used during slot substitution. -/
def PValue.pyStr : PValue → String
  | PValue.str s => s
  | PValue.num q => toString q
  | PValue.boolean b => if b then "True" else "False"
  | PValue.dict _ => ""

/-- An intent (models.py `Intent`). -/
structure Intent where
  type : IntentType
  confidence : ℚ
  slots : Params
  original_text : String

/-- A primitive or skill-backed action (models.py `Action`). -/
structure Action where
  type : ActionType
  parameters : Params
  description : String
  timeout : ℚ := 5

/-- An execution plan (models.py `Plan`). -/
structure Plan where
  id : String
  intent : Intent
  actions : List Action
  summary : String
  requires_confirmation : Bool := false
  estimated_duration : ℚ := 0
  risk_level : String := "low"

/-- Step execution status (models.py `StepStatus`). -/
inductive StepStatus where
  | pending | running | success | failed | skipped
deriving DecidableEq

/-- Result of one executed step (models.py `StepResult`). -/
structure StepResult where
  step_id : String
  status : StepStatus
  error_message : Option String := none
  output : Option PValue := none

/-- An execution session (models.py `ExecutionSession`); timing fields are omitted
as no claim mentions them. -/
structure ExecutionSession where
  id : String
  plan : Plan
  status : StepStatus
  step_results : List StepResult

/-- Number of step results with status SUCCESS. -/
def successCount (rs : List StepResult) : Nat :=
  (rs.filter (fun r => r.status = StepStatus.success)).length

/-- The `success_rate` property of models.py `ExecutionSession`: 0.0 when no
steps ran, else the number of SUCCESS steps over the number of steps. -/
def ExecutionSession.success_rate (s : ExecutionSession) : ℚ :=
  if s.step_results.isEmpty then 0
  else (successCount s.step_results : ℚ) / (s.step_results.length : ℚ)

theorem successCount_le (rs : List StepResult) : successCount rs ≤ rs.length :=
  List.length_filter_le _ rs

/-- C8: for every execution session, successRate is the number of SUCCESS step
results over the total number of step results, is 0.0 when stepResults is
empty, and always lies in the interval from 0.0 to 1.0. -/
theorem C8_success_rate (s : ExecutionSession) :
    (s.step_results = [] → s.success_rate = 0) ∧
    (s.step_results ≠ [] →
      s.success_rate = (successCount s.step_results : ℚ) / (s.step_results.length : ℚ)) ∧
    0 ≤ s.success_rate ∧ s.success_rate ≤ 1 := by
  refine ⟨fun h => ?_, fun h => ?_, ?_, ?_⟩
  · simp [ExecutionSession.success_rate, h]
  · simp [ExecutionSession.success_rate, h]
  · unfold ExecutionSession.success_rate
    split
    · exact le_refl 0
    · exact div_nonneg (Nat.cast_nonneg _) (Nat.cast_nonneg _)
  · unfold ExecutionSession.success_rate
    split
    · exact zero_le_one
    · rename_i hne
      have hnil : s.step_results ≠ [] := by
        intro h; rw [h] at hne; simp at hne
      have hpos : (0 : ℚ) < (s.step_results.length : ℚ) := by
        exact_mod_cast List.length_pos.mpr hnil
      rw [div_le_one hpos, Nat.cast_le]
      exact successCount_le s.step_results

/-- Witness for C8 at a concrete session with one SUCCESS and one SKIPPED step. -/
theorem C8_success_rate_witness :
    let rs := [({ step_id := "s_0", status := StepStatus.success } : StepResult),
               ({ step_id := "s_1", status := StepStatus.skipped } : StepResult)]
    let sess : ExecutionSession :=
      { id := "s", status := StepStatus.running,
        plan := { id := "p",
                  intent := { type := IntentType.unknown, confidence := 1, slots := [],
                              original_text := "" },
                  actions := [], summary := "" },
        step_results := rs }
    sess.success_rate = (successCount rs : ℚ) / (rs.length : ℚ) ∧
      0 ≤ sess.success_rate ∧ sess.success_rate ≤ 1 := by
  intro rs sess
  obtain ⟨-, h2, h3, h4⟩ := C8_success_rate sess
  exact ⟨h2 (by simp [sess, rs]), h3, h4⟩

/-! Guardrails engine (src/packages/planner/guardrails.py). -/

/-- Result of one `GuardrailRule.check` call. -/
structure RuleOutcome where
  passed : Bool
  message : String

/-- A guardrail rule (guardrails.py `GuardrailRule`); its `check` method is
modelled as a pure function of the plan and context, capturing the single
invocation `check_plan` makes per rule. -/
structure GuardrailRule where
  name : String
  description : String
  severity : String := "warning"
  applies_to : List IntentType := []
  check : Plan → Option Params → RuleOutcome

/-- Per-rule entry recorded by `check_plan` in `rule_results` and in the
partitioned lists. -/
structure RuleInfo where
  rule_name : String
  description : String
  severity : String
  passed : Bool
  message : String

/-- The results dictionary built by `GuardrailsEngine.check_plan`. -/
structure GuardrailResults where
  overall_passed : Bool
  can_execute : Bool
  requires_confirmation : Bool
  rule_results : List RuleInfo
  errors : List RuleInfo
  warnings : List RuleInfo
  info : List RuleInfo

/-- The `GuardrailsEngine._is_rule_applicable` predicate: universal when
`applies_to` is empty, else membership of the plan intent type. -/
def is_rule_applicable (rule : GuardrailRule) (plan : Plan) : Bool :=
  if rule.applies_to.isEmpty then true
  else decide (plan.intent.type ∈ rule.applies_to)

/-- The `rule_info` record built for one checked rule in `check_plan`. -/
def mkRuleInfo (plan : Plan) (ctx : Option Params) (rule : GuardrailRule) : RuleInfo :=
  { rule_name := rule.name
    description := rule.description
    severity := rule.severity
    passed := (rule.check plan ctx).passed
    message := (rule.check plan ctx).message }

/-- One iteration of the rule loop of `GuardrailsEngine.check_plan`:
record the rule result, and on failure categorise it by severity. -/
def applyRule (plan : Plan) (ctx : Option Params)
    (st : GuardrailResults) (rule : GuardrailRule) : GuardrailResults :=
  if is_rule_applicable rule plan then
    let res := rule.check plan ctx
    let ri := mkRuleInfo plan ctx rule
    let st1 := { st with rule_results := st.rule_results ++ [ri] }
    if !res.passed then
      if rule.severity = "error" ∨ rule.severity = "critical" then
        let st2 := { st1 with errors := st1.errors ++ [ri], overall_passed := false }
        if rule.severity = "critical" then { st2 with can_execute := false } else st2
      else if rule.severity = "warning" then
        { st1 with warnings := st1.warnings ++ [ri], requires_confirmation := true }
      else
        { st1 with info := st1.info ++ [ri] }
    else st1
  else st

/-- The results dictionary as first built by `check_plan`, before any rule runs:
`requires_confirmation` starts from `plan.requires_confirmation`. -/
def initResults (plan : Plan) : GuardrailResults :=
  { overall_passed := true
    can_execute := true
    requires_confirmation := plan.requires_confirmation
    rule_results := []
    errors := []
    warnings := []
    info := [] }

/-- The body of `GuardrailsEngine.check_plan`, folding the rule loop over the
engine rule list. -/
def check_plan (rules : List GuardrailRule) (plan : Plan) (ctx : Option Params) :
    GuardrailResults :=
  rules.foldl (applyRule plan ctx) (initResults plan)

/-- A rule that is applicable to the plan and whose check fails. -/
def ruleFails (plan : Plan) (ctx : Option Params) (r : GuardrailRule) : Bool :=
  is_rule_applicable r plan && !(r.check plan ctx).passed

theorem applyRule_can_execute (plan : Plan) (ctx : Option Params)
    (st : GuardrailResults) (r : GuardrailRule) :
    (applyRule plan ctx st r).can_execute =
      (st.can_execute && !(ruleFails plan ctx r && decide (r.severity = "critical"))) := by
  unfold applyRule ruleFails
  by_cases happ : is_rule_applicable r plan
  · by_cases hp : (r.check plan ctx).passed
    · simp [happ, hp]
    · by_cases hc : r.severity = "critical"
      · simp [happ, hp, hc]
      · by_cases he : r.severity = "error"
        · simp [happ, hp, hc, he]
        · by_cases hw : r.severity = "warning" <;> simp [happ, hp, hc, he, hw]
  · simp [happ]

theorem applyRule_overall_passed (plan : Plan) (ctx : Option Params)
    (st : GuardrailResults) (r : GuardrailRule) :
    (applyRule plan ctx st r).overall_passed =
      (st.overall_passed &&
        !(ruleFails plan ctx r &&
          (decide (r.severity = "error") || decide (r.severity = "critical")))) := by
  unfold applyRule ruleFails
  by_cases happ : is_rule_applicable r plan
  · by_cases hp : (r.check plan ctx).passed
    · simp [happ, hp]
    · by_cases hc : r.severity = "critical"
      · simp [happ, hp, hc]
      · by_cases he : r.severity = "error"
        · simp [happ, hp, hc, he]
        · by_cases hw : r.severity = "warning" <;> simp [happ, hp, hc, he, hw]
  · simp [happ]

theorem applyRule_requires_confirmation (plan : Plan) (ctx : Option Params)
    (st : GuardrailResults) (r : GuardrailRule) :
    (applyRule plan ctx st r).requires_confirmation =
      (st.requires_confirmation ||
        (ruleFails plan ctx r && decide (r.severity = "warning"))) := by
  unfold applyRule ruleFails
  by_cases happ : is_rule_applicable r plan
  · by_cases hp : (r.check plan ctx).passed
    · simp [happ, hp]
    · by_cases hc : r.severity = "critical"
      · simp [happ, hp, hc]
      · by_cases he : r.severity = "error"
        · simp [happ, hp, hc, he]
        · by_cases hw : r.severity = "warning" <;> simp [happ, hp, hc, he, hw]
  · simp [happ]

theorem applyRule_errors (plan : Plan) (ctx : Option Params)
    (st : GuardrailResults) (r : GuardrailRule) :
    (applyRule plan ctx st r).errors =
      st.errors ++
        (if ruleFails plan ctx r &&
            (decide (r.severity = "error") || decide (r.severity = "critical")) then
          [mkRuleInfo plan ctx r] else []) := by
  unfold applyRule ruleFails
  by_cases happ : is_rule_applicable r plan
  · by_cases hp : (r.check plan ctx).passed
    · simp [happ, hp]
    · by_cases hc : r.severity = "critical"
      · simp [happ, hp, hc]
      · by_cases he : r.severity = "error"
        · simp [happ, hp, hc, he]
        · by_cases hw : r.severity = "warning" <;> simp [happ, hp, hc, he, hw]
  · simp [happ]

theorem applyRule_warnings (plan : Plan) (ctx : Option Params)
    (st : GuardrailResults) (r : GuardrailRule) :
    (applyRule plan ctx st r).warnings =
      st.warnings ++
        (if ruleFails plan ctx r && decide (r.severity = "warning") then
          [mkRuleInfo plan ctx r] else []) := by
  unfold applyRule ruleFails
  by_cases happ : is_rule_applicable r plan
  · by_cases hp : (r.check plan ctx).passed
    · simp [happ, hp]
    · by_cases hc : r.severity = "critical"
      · simp [happ, hp, hc]
      · by_cases he : r.severity = "error"
        · simp [happ, hp, hc, he]
        · by_cases hw : r.severity = "warning" <;> simp [happ, hp, hc, he, hw]
  · simp [happ]

theorem foldl_can_execute (plan : Plan) (ctx : Option Params)
    (rules : List GuardrailRule) (st : GuardrailResults) :
    (rules.foldl (applyRule plan ctx) st).can_execute =
      (st.can_execute &&
        !(rules.any (fun r => ruleFails plan ctx r && decide (r.severity = "critical")))) := by
  induction rules generalizing st with
  | nil => simp
  | cons r rest ih =>
    simp only [List.foldl_cons, List.any_cons, ih, applyRule_can_execute]
    cases st.can_execute <;>
      cases hr : (ruleFails plan ctx r && decide (r.severity = "critical")) <;> simp

theorem foldl_overall_passed (plan : Plan) (ctx : Option Params)
    (rules : List GuardrailRule) (st : GuardrailResults) :
    (rules.foldl (applyRule plan ctx) st).overall_passed =
      (st.overall_passed &&
        !(rules.any (fun r => ruleFails plan ctx r &&
            (decide (r.severity = "error") || decide (r.severity = "critical"))))) := by
  induction rules generalizing st with
  | nil => simp
  | cons r rest ih =>
    simp only [List.foldl_cons, List.any_cons, ih, applyRule_overall_passed]
    cases st.overall_passed <;>
      cases hr : (ruleFails plan ctx r &&
        (decide (r.severity = "error") || decide (r.severity = "critical"))) <;> simp

theorem foldl_requires_confirmation (plan : Plan) (ctx : Option Params)
    (rules : List GuardrailRule) (st : GuardrailResults) :
    (rules.foldl (applyRule plan ctx) st).requires_confirmation =
      (st.requires_confirmation ||
        (rules.any (fun r => ruleFails plan ctx r && decide (r.severity = "warning")))) := by
  induction rules generalizing st with
  | nil => simp
  | cons r rest ih =>
    simp only [List.foldl_cons, List.any_cons, ih, applyRule_requires_confirmation]
    cases st.requires_confirmation <;>
      cases hr : (ruleFails plan ctx r && decide (r.severity = "warning")) <;> simp

theorem foldl_errors (plan : Plan) (ctx : Option Params)
    (rules : List GuardrailRule) (st : GuardrailResults) :
    (rules.foldl (applyRule plan ctx) st).errors =
      st.errors ++
        ((rules.filter (fun r => ruleFails plan ctx r &&
            (decide (r.severity = "error") || decide (r.severity = "critical")))).map
          (mkRuleInfo plan ctx)) := by
  induction rules generalizing st with
  | nil => simp
  | cons r rest ih =>
    simp only [List.foldl_cons, List.filter_cons, ih, applyRule_errors]
    cases hr : (ruleFails plan ctx r &&
        (decide (r.severity = "error") || decide (r.severity = "critical"))) <;>
      simp [List.append_assoc]

theorem foldl_warnings (plan : Plan) (ctx : Option Params)
    (rules : List GuardrailRule) (st : GuardrailResults) :
    (rules.foldl (applyRule plan ctx) st).warnings =
      st.warnings ++
        ((rules.filter (fun r => ruleFails plan ctx r &&
            decide (r.severity = "warning"))).map (mkRuleInfo plan ctx)) := by
  induction rules generalizing st with
  | nil => simp
  | cons r rest ih =>
    simp only [List.foldl_cons, List.filter_cons, ih, applyRule_warnings]
    cases hr : (ruleFails plan ctx r && decide (r.severity = "warning")) <;>
      simp [List.append_assoc]

/-- C1: in `GuardrailsEngine.check_plan`, an applicable failing rule of
severity critical sets canExecute to false; an applicable failing rule of
severity error lands in `errors` and makes overallPassed false, but does not by
itself make canExecute false (canExecute stays true whenever no applicable
failing rule is critical); an applicable failing rule of severity warning lands
in `warnings` and makes requiresConfirmation true. -/
theorem C1_guardrail_severities (rules : List GuardrailRule) (plan : Plan)
    (ctx : Option Params) :
    (∀ r ∈ rules, is_rule_applicable r plan = true →
        (r.check plan ctx).passed = false →
        ((r.severity = "critical" → (check_plan rules plan ctx).can_execute = false) ∧
         (r.severity = "error" →
            mkRuleInfo plan ctx r ∈ (check_plan rules plan ctx).errors ∧
            (check_plan rules plan ctx).overall_passed = false) ∧
         (r.severity = "warning" →
            mkRuleInfo plan ctx r ∈ (check_plan rules plan ctx).warnings ∧
            (check_plan rules plan ctx).requires_confirmation = true))) ∧
    ((∀ r ∈ rules, is_rule_applicable r plan = true →
        (r.check plan ctx).passed = false → r.severity ≠ "critical") →
      (check_plan rules plan ctx).can_execute = true) := by
  unfold check_plan
  constructor
  · intro r hr happ hfail
    have hf : ruleFails plan ctx r = true := by
      simp [ruleFails, happ, hfail]
    refine ⟨fun hc => ?_, fun he => ⟨?_, ?_⟩, fun hw => ⟨?_, ?_⟩⟩
    · rw [foldl_can_execute]
      have hany : rules.any
          (fun r => ruleFails plan ctx r && decide (r.severity = "critical")) = true :=
        List.any_eq_true.mpr ⟨r, hr, by simp [hf, hc]⟩
      simp [hany]
    · rw [foldl_errors]
      have hmem : r ∈ rules.filter (fun r => ruleFails plan ctx r &&
          (decide (r.severity = "error") || decide (r.severity = "critical"))) :=
        List.mem_filter.mpr ⟨hr, by simp [hf, he]⟩
      exact List.mem_append_right _ (List.mem_map.mpr ⟨r, hmem, rfl⟩)
    · rw [foldl_overall_passed]
      have hany : rules.any (fun r => ruleFails plan ctx r &&
          (decide (r.severity = "error") || decide (r.severity = "critical"))) = true :=
        List.any_eq_true.mpr ⟨r, hr, by simp [hf, he]⟩
      simp [hany]
    · rw [foldl_warnings]
      have hmem : r ∈ rules.filter (fun r => ruleFails plan ctx r &&
          decide (r.severity = "warning")) :=
        List.mem_filter.mpr ⟨hr, by simp [hf, hw]⟩
      exact List.mem_append_right _ (List.mem_map.mpr ⟨r, hmem, rfl⟩)
    · rw [foldl_requires_confirmation]
      have hany : rules.any
          (fun r => ruleFails plan ctx r && decide (r.severity = "warning")) = true :=
        List.any_eq_true.mpr ⟨r, hr, by simp [hf, hw]⟩
      simp [hany]
  · intro hnone
    rw [foldl_can_execute]
    have hany : rules.any
        (fun r => ruleFails plan ctx r && decide (r.severity = "critical")) = false := by
      rw [List.any_eq_false]
      intro r hr
      by_cases hf : ruleFails plan ctx r = true
      · have hparts := hf
        simp only [ruleFails, Bool.and_eq_true, Bool.not_eq_true'] at hparts
        simp [hf, hnone r hr hparts.1 hparts.2]
      · simp only [Bool.not_eq_true] at hf
        simp [hf]
    simp [initResults, hany]

/-- Witness for C1: one failing rule of each severity over a plan that hits all
three branches. -/
theorem C1_guardrail_severities_witness :
    let plan : Plan :=
      { id := "p"
        intent := { type := IntentType.type_text, confidence := 1, slots := [],
                    original_text := "t" }
        actions := [], summary := "" }
    let failCrit : GuardrailRule :=
      { name := "crit", description := "", severity := "critical",
        check := fun _ _ => { passed := false, message := "c" } }
    let failErr : GuardrailRule :=
      { name := "err", description := "", severity := "error",
        check := fun _ _ => { passed := false, message := "e" } }
    let failWarn : GuardrailRule :=
      { name := "warn", description := "", severity := "warning",
        check := fun _ _ => { passed := false, message := "w" } }
    let rules := [failCrit, failErr, failWarn]
    ((check_plan rules plan none).can_execute = false ∧
      mkRuleInfo plan none failErr ∈ (check_plan rules plan none).errors ∧
      (check_plan rules plan none).overall_passed = false ∧
      mkRuleInfo plan none failWarn ∈ (check_plan rules plan none).warnings ∧
      (check_plan rules plan none).requires_confirmation = true) ∧
    (check_plan [failErr, failWarn] plan none).can_execute = true := by
  intro plan failCrit failErr failWarn rules
  have h1 := (C1_guardrail_severities rules plan none).1 failCrit (by simp [rules])
    (by simp [failCrit, is_rule_applicable]) (by simp [failCrit])
  have h2 := (C1_guardrail_severities rules plan none).1 failErr (by simp [rules])
    (by simp [failErr, is_rule_applicable]) (by simp [failErr])
  have h3 := (C1_guardrail_severities rules plan none).1 failWarn (by simp [rules])
    (by simp [failWarn, is_rule_applicable]) (by simp [failWarn])
  have h4 := (C1_guardrail_severities [failErr, failWarn] plan none).2 (by
    intro r hr _ _
    simp only [List.mem_cons, List.mem_singleton, List.not_mem_nil, or_false] at hr
    rcases hr with h | h <;> subst h <;> simp [failErr, failWarn])
  exact ⟨⟨h1.1 rfl, (h2.2.1 rfl).1, (h2.2.1 rfl).2, (h3.2.2 rfl).1, (h3.2.2 rfl).2⟩, h4⟩

/-- C9: the verdict of `check_plan` starts its requiresConfirmation from
`plan.requires_confirmation`: when every applicable rule passes it equals
`plan.requires_confirmation` exactly, and whenever the plan itself requires
confirmation the verdict requires confirmation, no matter what the rules do. -/
theorem C9_requires_confirmation_from_plan (rules : List GuardrailRule)
    (plan : Plan) (ctx : Option Params) :
    (plan.requires_confirmation = true →
      (check_plan rules plan ctx).requires_confirmation = true) ∧
    ((∀ r ∈ rules, is_rule_applicable r plan = true →
        (r.check plan ctx).passed = true) →
      (check_plan rules plan ctx).requires_confirmation = plan.requires_confirmation) := by
  unfold check_plan
  rw [foldl_requires_confirmation]
  constructor
  · intro h
    simp [initResults, h]
  · intro hall
    simp only [initResults]
    have : rules.any (fun r => ruleFails plan ctx r && decide (r.severity = "warning")) =
        false := by
      simp only [List.any_eq_false]
      intro r hr
      by_cases happ : is_rule_applicable r plan = true
      · simp [ruleFails, happ, hall r hr happ]
      · simp only [Bool.not_eq_true] at happ
        simp [ruleFails, happ]
    simp [this]

/-- Witness for C9: a plan that itself requires confirmation, checked against a
single universal passing rule. -/
theorem C9_requires_confirmation_from_plan_witness :
    let plan : Plan :=
      { id := "p"
        intent := { type := IntentType.save_file, confidence := 1, slots := [],
                    original_text := "s" }
        actions := [], summary := "", requires_confirmation := true }
    let okRule : GuardrailRule :=
      { name := "ok", description := "", severity := "warning",
        check := fun _ _ => { passed := true, message := "" } }
    (check_plan [okRule] plan none).requires_confirmation = true := by
  intro plan okRule
  exact (C9_requires_confirmation_from_plan [okRule] plan none).1 rfl

/-! Plan validation (plan_generator.py) and execution decision (planner_manager.py). -/

/-- A registered skill; only its parameter validation is relevant here. -/
structure Skill where
  validate_parameters : Params → Bool

/-- The skill manager collaborator: `get_skill` returns the registered skill,
`get_skill_info` is the truthiness of the info dictionary. -/
structure SkillManager where
  get_skill : String → Option Skill
  get_skill_info : String → Bool

/-- The validation dictionary produced by `PlanGenerator.validate_plan`. -/
structure Validation where
  valid : Bool
  errors : List String
  warnings : List String

/-- Reading a `skill_name` entry as the Python string it holds. -/
def PValue.asStr : PValue → String
  | PValue.str s => s
  | _ => ""

/-- Reading a `skill_parameters` entry as the dict it holds (`get` default empty). -/
def PValue.asDict : PValue → Params
  | PValue.dict d => d
  | _ => []

/-- The body of `PlanGenerator._validate_action`: warn on a missing
description, require text for a TYPE_TEXT action, and check that a referenced
skill exists and accepts its parameters. -/
def validate_action (sm : SkillManager) (action : Action) : Validation :=
  let st : Validation := { valid := true, errors := [], warnings := [] }
  let st := if action.description = "" then
      { st with warnings := st.warnings ++ ["Description d action manquante"] }
    else st
  let st := if action.type = ActionType.type_text then
      (if action.parameters.getStr "text" "" = "" then
        { st with errors := st.errors ++ ["Texte a saisir manquant"], valid := false }
      else st)
    else st
  match action.parameters.get? "skill_name" with
  | some sv =>
    match sm.get_skill sv.asStr with
    | none =>
      { st with errors := st.errors ++ ["Competence " ++ sv.asStr ++ " non trouvee"],
                valid := false }
    | some skill =>
      let skill_params := match action.parameters.get? "skill_parameters" with
        | some pv => pv.asDict
        | none => []
      if !skill.validate_parameters skill_params then
        { st with errors := st.errors ++ ["Parametres invalides pour " ++ sv.asStr],
                  valid := false }
      else st
  | none => st

/-- The message prefix `Action i: ` prepended to per-action errors and warnings. -/
def actionPrefixed (i : Nat) (msg : String) : String :=
  "Action " ++ toString i ++ ": " ++ msg

/-- The body of `PlanGenerator._check_plan_coherence`: warn when a plan holds
more than three screenshot actions. -/
def check_plan_coherence (plan : Plan) : List String :=
  if 3 < ((plan.actions.map (fun a => a.type)).filter
      (fun t => t = ActionType.screenshot)).length then
    ["Nombreuses captures d ecran - plan potentiellement inefficace"]
  else []

/-- One iteration of the per-action loop of `validate_plan`. -/
def validateStep (sm : SkillManager) (st : Validation) (ia : Nat × Action) : Validation :=
  let av := validate_action sm ia.2
  let st := if !av.valid then
      { st with errors := st.errors ++ av.errors.map (actionPrefixed ia.1),
                valid := false }
    else st
  { st with warnings := st.warnings ++ av.warnings.map (actionPrefixed ia.1) }

/-- The body of `PlanGenerator.validate_plan`: an empty plan is an error; each
action is validated with its index; coherence warnings are appended. -/
def validate_plan (sm : SkillManager) (plan : Plan) : Validation :=
  let base : Validation := { valid := true, errors := [], warnings := [] }
  let base := if plan.actions.isEmpty then
      { base with errors := base.errors ++ ["Plan vide - aucune action definie"],
                  valid := false }
    else base
  let st := plan.actions.enum.foldl (validateStep sm) base
  { st with warnings := st.warnings ++ check_plan_coherence plan }

theorem validateStep_invariant (sm : SkillManager) (st : Validation) (ia : Nat × Action)
    (h : st.valid = true → st.errors = []) :
    (validateStep sm st ia).valid = true → (validateStep sm st ia).errors = [] := by
  unfold validateStep
  by_cases hv : (validate_action sm ia.2).valid
  · simpa [hv] using h
  · simp [hv]

theorem validate_foldl_invariant (sm : SkillManager) (l : List (Nat × Action))
    (st : Validation) (h : st.valid = true → st.errors = []) :
    (l.foldl (validateStep sm) st).valid = true →
      (l.foldl (validateStep sm) st).errors = [] := by
  induction l generalizing st with
  | nil => exact h
  | cons ia rest ih =>
    simp only [List.foldl_cons]
    exact ih _ (validateStep_invariant sm st ia h)

/-- In `validate_plan`, a validation that comes out valid carries no errors:
errors are only ever appended together with setting `valid` to false. -/
theorem validate_plan_valid_no_errors (sm : SkillManager) (plan : Plan) :
    (validate_plan sm plan).valid = true → (validate_plan sm plan).errors = [] := by
  unfold validate_plan
  by_cases he : plan.actions.isEmpty <;>
    exact fun h => validate_foldl_invariant sm _ _ (by simp [he]) h

/-- The decision dictionary built by `PlannerManager._make_execution_decision`. -/
structure ExecutionDecision where
  approved : Bool
  requires_confirmation : Bool
  blocking_reasons : List String
  warnings : List String
  recommendations : List String

/-- The blocking reasons accumulated by `_make_execution_decision`: the
validation errors (when the validation is invalid) followed by the guardrail
error messages (when the verdict forbids execution). -/
def decisionBlocking (v : Validation) (s : GuardrailResults) : List String :=
  (if !v.valid then v.errors else []) ++
    (if !s.can_execute then s.errors.map (fun e => e.message) else [])

/-- The recommendations accumulated by `_make_execution_decision`. -/
def decisionRecs (v : Validation) (s : GuardrailResults) : List String :=
  (if !v.valid then ["Corrigez les erreurs de plan"] else []) ++
    (if !s.can_execute then ["Verifiez les parametres de securite"] else [])

/-- The warnings accumulated by `_make_execution_decision`: validation warnings
followed by guardrail warning messages. -/
def decisionWarnings (v : Validation) (s : GuardrailResults) : List String :=
  v.warnings ++ s.warnings.map (fun w => w.message)

/-- The body of `PlannerManager._make_execution_decision`: blocking reasons
collect validation errors (when invalid) and guardrail error messages (when the
verdict forbids execution); approval and the confirmation flag are set only
when no blocking reason exists. -/
def make_execution_decision (v : Validation) (s : GuardrailResults) : ExecutionDecision :=
  if (decisionBlocking v s).isEmpty then
    { approved := true
      requires_confirmation := s.requires_confirmation ||
        !(decisionWarnings v s).isEmpty
      blocking_reasons := decisionBlocking v s
      warnings := decisionWarnings v s
      recommendations := decisionRecs v s }
  else
    { approved := false
      requires_confirmation := false
      blocking_reasons := decisionBlocking v s
      warnings := decisionWarnings v s
      recommendations := decisionRecs v s }

theorem med_blocking (v : Validation) (s : GuardrailResults) :
    (make_execution_decision v s).blocking_reasons = decisionBlocking v s := by
  simp only [make_execution_decision]
  split <;> rfl

theorem med_warnings (v : Validation) (s : GuardrailResults) :
    (make_execution_decision v s).warnings = decisionWarnings v s := by
  simp only [make_execution_decision]
  split <;> rfl

theorem med_approved (v : Validation) (s : GuardrailResults) :
    (make_execution_decision v s).approved = (decisionBlocking v s).isEmpty := by
  simp only [make_execution_decision]
  by_cases hb : (decisionBlocking v s).isEmpty <;> simp [hb]

theorem med_requires_confirmation (v : Validation) (s : GuardrailResults) :
    (make_execution_decision v s).requires_confirmation =
      (if (decisionBlocking v s).isEmpty then
        s.requires_confirmation || !(decisionWarnings v s).isEmpty
      else false) := by
  simp only [make_execution_decision]
  by_cases hb : (decisionBlocking v s).isEmpty <;> simp [hb]

/-- C2: for a decision made from a `validate_plan` result and a guardrail
verdict, approved holds exactly when blockingReasons is empty, and
blockingReasons is the validation errors followed by the guardrail error
messages, the latter present only when the verdict forbids execution. -/
theorem C2_decision_blocking (sm : SkillManager) (plan : Plan) (s : GuardrailResults)
    (v : Validation) (hv : v = validate_plan sm plan) :
    ((make_execution_decision v s).approved = true ↔
      (make_execution_decision v s).blocking_reasons = []) ∧
    (make_execution_decision v s).blocking_reasons =
      v.errors ++ (if s.can_execute then [] else s.errors.map (fun e => e.message)) := by
  have herr : (if !v.valid then v.errors else []) = v.errors := by
    by_cases hval : v.valid
    · have : v.errors = [] := by
        rw [hv]; exact validate_plan_valid_no_errors sm plan (hv ▸ hval)
      simp [hval, this]
    · simp [hval]
  constructor
  · rw [med_approved, med_blocking, List.isEmpty_iff]
  · rw [med_blocking]
    unfold decisionBlocking
    rw [herr]
    by_cases hc : s.can_execute <;> simp [hc]

/-- Witness for C2 at a concrete invalid plan (no actions) and a verdict that
forbids execution with one error message. -/
theorem C2_decision_blocking_witness :
    let sm : SkillManager := { get_skill := fun _ => none, get_skill_info := fun _ => false }
    let plan : Plan :=
      { id := "p"
        intent := { type := IntentType.unknown, confidence := 1, slots := [],
                    original_text := "" }
        actions := [], summary := "" }
    let s : GuardrailResults :=
      { overall_passed := false, can_execute := false, requires_confirmation := false,
        rule_results := [],
        errors := [{ rule_name := "crit", description := "", severity := "critical",
                     passed := false, message := "bloque" }],
        warnings := [], info := [] }
    let v := validate_plan sm plan
    ((make_execution_decision v s).approved = true ↔
      (make_execution_decision v s).blocking_reasons = []) ∧
    (make_execution_decision v s).blocking_reasons =
      v.errors ++ (if s.can_execute then [] else s.errors.map (fun e => e.message)) := by
  intro sm plan s v
  exact C2_decision_blocking sm plan s v rfl

/-- Counterexample to C6 as stated: an invalid validation (the one
`validate_plan` yields for an action-less plan) together with a verdict whose
requiresConfirmation is true give a decision whose requiresConfirmation is
false, although the claimed right-hand side is true. -/
theorem C6_counterexample :
    let v : Validation :=
      { valid := false, errors := ["Plan vide - aucune action definie"], warnings := [] }
    let s : GuardrailResults :=
      { overall_passed := true, can_execute := true, requires_confirmation := true,
        rule_results := [], errors := [], warnings := [], info := [] }
    (make_execution_decision v s).requires_confirmation = false ∧
      (s.requires_confirmation ||
        !(make_execution_decision v s).warnings.isEmpty) = true := by
  exact ⟨rfl, rfl⟩

/-- C6 amended: a decision requiresConfirmation equal to (verdict
requiresConfirmation OR non-empty warnings) exactly when blockingReasons is
empty; with blocking reasons present, requiresConfirmation stays false. -/
theorem C6_requires_confirmation (v : Validation) (s : GuardrailResults) :
    ((make_execution_decision v s).blocking_reasons = [] →
      (make_execution_decision v s).requires_confirmation =
        (s.requires_confirmation || !(make_execution_decision v s).warnings.isEmpty)) ∧
    ((make_execution_decision v s).blocking_reasons ≠ [] →
      (make_execution_decision v s).requires_confirmation = false) := by
  rw [med_blocking, med_requires_confirmation, med_warnings]
  by_cases hb : (decisionBlocking v s).isEmpty
  · have hnil : decisionBlocking v s = [] := List.isEmpty_iff.mp hb
    simp [hb, hnil]
  · have hnil : decisionBlocking v s ≠ [] := fun h => hb (by simp [h])
    simp [hb, hnil]

/-- Witness for C6 amended in both branches: an approved empty-blocking
decision with a confirming verdict, and a blocked decision. -/
theorem C6_requires_confirmation_witness :
    let vOk : Validation := { valid := true, errors := [], warnings := [] }
    let vBad : Validation := { valid := false, errors := ["e"], warnings := [] }
    let s : GuardrailResults :=
      { overall_passed := true, can_execute := true, requires_confirmation := true,
        rule_results := [], errors := [], warnings := [], info := [] }
    (make_execution_decision vOk s).requires_confirmation =
      (s.requires_confirmation || !(make_execution_decision vOk s).warnings.isEmpty) ∧
    (make_execution_decision vBad s).requires_confirmation = false := by
  intro vOk vBad s
  exact ⟨(C6_requires_confirmation vOk s).1 (by simp [med_blocking, decisionBlocking]),
         (C6_requires_confirmation vBad s).2 (by simp [med_blocking, decisionBlocking])⟩

/-! Execution loop (src/apps/agent/services.py `AgentService._execute_plan` /
`_execute_action`). -/

/-- Outcome of one `skill_manager.execute_skill` call; a raised exception is
captured by `_execute_action` the same way as a failure, so it is folded into
`success = false` with its message. -/
structure SkillExecResult where
  success : Bool
  error : Option String := none
  data : Option PValue := none

/-- The skill-execution collaborator, as a function of skill name and skill
parameters. -/
abbrev SkillExecutor := String → Params → SkillExecResult

/-- The body of `AgentService._execute_action`: dispatch to the skill named in
the action parameters, or mark the step SKIPPED when the action carries no
`skill_name` (primitive actions are not implemented). -/
def execute_action (ex : SkillExecutor) (session_id : String) (step_index : Nat)
    (a : Action) : StepResult :=
  match a.parameters.get? "skill_name" with
  | some sv =>
    let res := ex sv.asStr
      (match a.parameters.get? "skill_parameters" with
       | some pv => pv.asDict
       | none => [])
    { step_id := session_id ++ "_" ++ toString step_index
      status := if res.success then StepStatus.success else StepStatus.failed
      error_message := res.error
      output := res.data }
  | none =>
    { step_id := session_id ++ "_" ++ toString step_index
      status := StepStatus.skipped
      error_message := some "Actions primitives non implementees"
      output := none }

/-- The action loop of `AgentService._execute_plan`: execute the actions in
order, appending one step result per executed action, and stop right after the
first FAILED step. -/
def run_actions (ex : SkillExecutor) (sid : String) : Nat → List Action → List StepResult
  | _, [] => []
  | i, a :: rest =>
    let r := execute_action ex sid i a
    if r.status = StepStatus.failed then [r]
    else r :: run_actions ex sid (i + 1) rest

/-- Indexed map, describing which actions a run attempted and in which order. -/
def mapWithIndex (f : Nat → Action → StepResult) : Nat → List Action → List StepResult
  | _, [] => []
  | i, a :: rest => f i a :: mapWithIndex f (i + 1) rest

/-- The session finalisation of `_execute_plan`: SUCCESS when the success rate
exceeds 0.8, otherwise FAILED. -/
def finalize_status (sess : ExecutionSession) : StepStatus :=
  if (0.8 : ℚ) < sess.success_rate then StepStatus.success else StepStatus.failed

/-- The execution session as `_execute_plan` leaves it: step results from the
fail-fast loop over the plan actions, and the terminal status derived from the
success rate. -/
def execute_plan_session (ex : SkillExecutor) (sid : String) (plan : Plan) :
    ExecutionSession :=
  let rs := run_actions ex sid 0 plan.actions
  { id := sid, plan := plan,
    status := finalize_status { id := sid, plan := plan, status := StepStatus.running,
                                step_results := rs },
    step_results := rs }

/-- C4: at every point of the execution loop (every prefix of the action list,
hence every intermediate state) and at termination, the loop has produced at
most one step result per plan action, the results are exactly the in-order
execution of the first `n` actions (no later action is attempted), and when the
loop stopped short the last recorded step is FAILED. -/
theorem C4_fail_fast (ex : SkillExecutor) (sid : String) (i : Nat)
    (actions : List Action) :
    (run_actions ex sid i actions).length ≤ actions.length ∧
    run_actions ex sid i actions =
      mapWithIndex (execute_action ex sid) i
        (actions.take (run_actions ex sid i actions).length) ∧
    ((run_actions ex sid i actions).length < actions.length →
      ∃ r, (run_actions ex sid i actions).getLast? = some r ∧
        r.status = StepStatus.failed) := by
  induction actions generalizing i with
  | nil => simp [run_actions, mapWithIndex]
  | cons a rest ih =>
    by_cases hf : (execute_action ex sid i a).status = StepStatus.failed
    · refine ⟨?_, ?_, ?_⟩
      · simp [run_actions, hf]
      · simp [run_actions, hf, mapWithIndex]
      · intro _
        exact ⟨execute_action ex sid i a, by simp [run_actions, hf], hf⟩
    · obtain ⟨ih1, ih2, ih3⟩ := ih (i + 1)
      have hrun : run_actions ex sid i (a :: rest) =
          execute_action ex sid i a :: run_actions ex sid (i + 1) rest := by
        simp [run_actions, hf]
      refine ⟨?_, ?_, ?_⟩
      · simp only [hrun, List.length_cons]
        omega
      · simp only [hrun, List.length_cons, List.take_succ_cons, mapWithIndex]
        exact congrArg _ ih2
      · intro hlt
        simp only [hrun, List.length_cons] at hlt
        have hlt2 : (run_actions ex sid (i + 1) rest).length < rest.length := by omega
        obtain ⟨r, hr, hrs⟩ := ih3 hlt2
        refine ⟨r, ?_, hrs⟩
        rw [hrun, List.getLast?_cons, hr]
        rfl

/-- Witness for C4 with an executor that fails every skill, over a two-action
plan: the loop stops after the first action and its step is FAILED. -/
theorem C4_fail_fast_witness :
    let ex : SkillExecutor := fun _ _ => { success := false, error := some "boom" }
    let act : Action :=
      { type := ActionType.screenshot
        parameters := [("skill_name", PValue.str "open_app"),
                       ("skill_parameters", PValue.dict [])]
        description := "skill" }
    let actions := [act, act]
    (run_actions ex "s" 0 actions).length ≤ actions.length ∧
    (run_actions ex "s" 0 actions).length < actions.length ∧
    ∃ r, (run_actions ex "s" 0 actions).getLast? = some r ∧
      r.status = StepStatus.failed := by
  intro ex act actions
  obtain ⟨h1, -, h3⟩ := C4_fail_fast ex "s" 0 actions
  have hlt : (run_actions ex "s" 0 actions).length < actions.length := by
    simp [actions, run_actions, execute_action, act, ex, Params.get?, PValue.asStr,
      PValue.asDict, List.lookup]
  exact ⟨h1, hlt, h3 hlt⟩

/-- C10: an action without a `skill_name` parameter is never dispatched to the
skill executor and yields a SKIPPED step; a SKIPPED step does not stop the
loop; a SKIPPED step counts as a non-success in the success rate; and a
session can terminate FAILED although none of its steps is FAILED. -/
theorem C10_skipped_steps :
    (∀ (ex ex2 : SkillExecutor) (sid : String) (i : Nat) (a : Action),
      a.parameters.get? "skill_name" = none →
        execute_action ex sid i a = execute_action ex2 sid i a ∧
        (execute_action ex sid i a).status = StepStatus.skipped) ∧
    (∀ (ex : SkillExecutor) (sid : String) (i : Nat) (a : Action) (rest : List Action),
      a.parameters.get? "skill_name" = none →
        run_actions ex sid i (a :: rest) =
          execute_action ex sid i a :: run_actions ex sid (i + 1) rest) ∧
    (∀ (rs : List StepResult) (r : StepResult), r.status = StepStatus.skipped →
      successCount (r :: rs) = successCount rs) ∧
    (∃ (ex : SkillExecutor) (plan : Plan),
      (execute_plan_session ex "s" plan).status = StepStatus.failed ∧
      (execute_plan_session ex "s" plan).step_results ≠ [] ∧
      ∀ r ∈ (execute_plan_session ex "s" plan).step_results,
        r.status ≠ StepStatus.failed) := by
  refine ⟨?_, ?_, ?_, ?_⟩
  · intro ex ex2 sid i a h
    simp [execute_action, h]
  · intro ex sid i a rest h
    simp [run_actions, execute_action, h]
  · intro rs r h
    simp [successCount, h]
  · refine ⟨fun _ _ => { success := true },
      { id := "p"
        intent := { type := IntentType.open_app, confidence := 1, slots := [],
                    original_text := "" }
        actions := [{ type := ActionType.wait, parameters := [("duration", PValue.num 2)],
                      description := "attente" }]
        summary := "" }, ?_, ?_, ?_⟩
    · simp [execute_plan_session, finalize_status, ExecutionSession.success_rate,
        run_actions, execute_action, Params.get?, List.lookup, successCount]
      norm_num
    · simp [execute_plan_session, run_actions, execute_action, Params.get?, List.lookup]
    · intro r hr
      simp [execute_plan_session, run_actions, execute_action, Params.get?,
        List.lookup] at hr
      rw [hr]
      simp

/-- Witness for C10, instantiating its universally quantified conjuncts at a
concrete primitive WAIT action and at a SKIPPED step result. -/
theorem C10_skipped_steps_witness :
    let ex : SkillExecutor := fun _ _ => { success := true }
    let ex2 : SkillExecutor := fun _ _ => { success := false }
    let a : Action :=
      { type := ActionType.wait, parameters := [("duration", PValue.num 2)],
        description := "attente" }
    let r : StepResult := { step_id := "s_0", status := StepStatus.skipped }
    (execute_action ex "s" 0 a = execute_action ex2 "s" 0 a ∧
      (execute_action ex "s" 0 a).status = StepStatus.skipped) ∧
    run_actions ex "s" 0 [a, a] =
      execute_action ex "s" 0 a :: run_actions ex "s" 1 [a] ∧
    successCount [r] = successCount [] := by
  intro ex ex2 a r
  have hno : a.parameters.get? "skill_name" = none := by
    simp [a, Params.get?, List.lookup]
  exact ⟨C10_skipped_steps.1 ex ex2 "s" 0 a hno,
         C10_skipped_steps.2.1 ex "s" 0 a [a] hno,
         C10_skipped_steps.2.2.1 [] r rfl⟩

/-! Rate limiting (guardrails.py `RateLimitRule`). -/

/-- The mutable state of a `RateLimitRule`: its invocation timestamps and the
per-minute maximum (default 10). -/
structure RateLimitState where
  execution_history : List ℚ
  max_executions_per_minute : Nat := 10

/-- The body of `RateLimitRule.check` at clock value `current_time`: prune
timestamps aged 60 seconds or more, fail when the pruned window already holds
at least the maximum, and record the current timestamp only on a pass. -/
def rate_limit_check (st : RateLimitState) (current_time : ℚ) :
    RuleOutcome × RateLimitState :=
  let hist := st.execution_history.filter (fun ts => current_time - ts < 60)
  if st.max_executions_per_minute ≤ hist.length then
    ({ passed := false, message := "Limite de taux depassee" },
     { st with execution_history := hist })
  else
    ({ passed := true, message := "Limite de taux respectee" },
     { st with execution_history := hist ++ [current_time] })

/-- A sequence of `RateLimitRule.check` calls at the given clock values,
collecting each outcome. -/
def rate_limit_run (times : List ℚ) (st : RateLimitState) :
    List Bool × RateLimitState :=
  times.foldl
    (fun acc t =>
      let step := rate_limit_check acc.2 t
      (acc.1 ++ [step.1.passed], step.2))
    ([], st)

/-- C7: a rate-limit check fails exactly when the window, after dropping
timestamps 60 seconds old or older, already holds at least the configured
maximum; the current timestamp is appended only on a pass; and the 11th of 11
checks within 60 seconds at the default limit of 10 returns passed false. -/
theorem C7_rate_limit (st : RateLimitState) (t : ℚ) :
    ((rate_limit_check st t).1.passed = false ↔
      st.max_executions_per_minute ≤
        (st.execution_history.filter (fun ts => t - ts < 60)).length) ∧
    ((rate_limit_check st t).1.passed = true →
      (rate_limit_check st t).2.execution_history =
        st.execution_history.filter (fun ts => t - ts < 60) ++ [t]) ∧
    ((rate_limit_check st t).1.passed = false →
      (rate_limit_check st t).2.execution_history =
        st.execution_history.filter (fun ts => t - ts < 60)) ∧
    (rate_limit_run [0, 6, 12, 18, 24, 30, 36, 42, 48, 54, 59]
        { execution_history := [] }).1 =
      [true, true, true, true, true, true, true, true, true, true, false] := by
  refine ⟨?_, ?_, ?_,
      by norm_num [rate_limit_run, rate_limit_check, List.filter_cons]⟩ <;>
    · unfold rate_limit_check
      by_cases h : st.max_executions_per_minute ≤
          (st.execution_history.filter (fun ts => t - ts < 60)).length <;>
        simp [h]

/-- Witness for C7 at a state already holding ten fresh timestamps: the check
fails and records nothing. -/
theorem C7_rate_limit_witness :
    let st : RateLimitState :=
      { execution_history := [0, 1, 2, 3, 4, 5, 6, 7, 8, 9] }
    ((rate_limit_check st 10).1.passed = false ↔
      st.max_executions_per_minute ≤
        (st.execution_history.filter (fun ts => (10 : ℚ) - ts < 60)).length) ∧
    (rate_limit_check st 10).2.execution_history =
      st.execution_history.filter (fun ts => (10 : ℚ) - ts < 60) := by
  intro st
  obtain ⟨h1, -, h3, -⟩ := C7_rate_limit st 10
  exact ⟨h1, h3 (by norm_num [rate_limit_check, List.filter_cons])⟩

/-! Plan generation (src/packages/planner/plan_generator.py). -/

/-- Left-to-right non-overlapping replacement over character lists, with fuel
bounded by the input length so the recursion is structural. -/
def replaceChars (pat repl : List Char) : Nat → List Char → List Char
  | _, [] => []
  | 0, rest => rest
  | n + 1, c :: cs =>
    if pat ≠ [] ∧ pat.isPrefixOf (c :: cs) then
      repl ++ replaceChars pat repl n (cs.drop (pat.length - 1))
    else c :: replaceChars pat repl n cs

/-- Python `s.replace(pattern, repl)`: replace every non-overlapping occurrence
left to right. The substitution patterns produced below are brace-delimited and
hence never empty, so the empty-pattern case never arises. -/
def pyReplace (s pattern repl : String) : String :=
  if pattern = "" then s
  else ⟨replaceChars pattern.data repl.data s.data.length s.data⟩

/-- The slot-substitution loop of `_process_action_definition`: replace each
placeholder `\x7bkey\x7d` by the slot value rendered as a string (replacing is
the identity when the placeholder does not occur, so the `in` guard of the
source is absorbed). -/
def substSlots (slots : Params) (s : String) : String :=
  slots.foldl (fun acc kv => pyReplace acc ("\x7b" ++ kv.1 ++ "\x7d") kv.2.pyStr) s

/-- Slot substitution inside the string-valued template parameters. -/
def substParamValues (slots : Params) (ps : Params) : Params :=
  ps.map (fun kv =>
    match kv.2 with
    | PValue.str s => (kv.1, PValue.str (substSlots slots s))
    | _ => kv)

/-- One step blueprint of a `PlanTemplate`: either a primitive `type` entry or
a `skill` entry, optional template parameters, and a description. -/
structure ActionDef where
  type : Option ActionType := none
  skill : Option String := none
  parameters : Option Params := none
  description : String

/-- A plan template (plan_generator.py `PlanTemplate`). -/
structure PlanTemplate where
  intent_type : IntentType
  actions : List ActionDef
  requires_confirmation : Bool := false
  estimated_duration : ℚ := 5
  risk_level : String := "low"

/-- The body of `PlanGenerator._process_action_definition`: substitute slots in
the description and in string-valued parameters, and for a skill blueprint
merge every intent slot into the parameters when the skill is known. -/
def process_action_definition (sm : SkillManager) (ad : ActionDef) (slots : Params)
    (_ctx : Option Params) : ActionDef :=
  let desc := substSlots slots ad.description
  let ps := ad.parameters.map (substParamValues slots)
  match ad.skill with
  | some sk =>
    let base := ps.getD []
    let merged := if sm.get_skill_info sk then
        slots.foldl (fun p kv => p.set kv.1 kv.2) base
      else base
    { ad with description := desc, parameters := some merged }
  | none => { ad with description := desc, parameters := ps }

/-- The body of `PlanGenerator._generate_actions_from_template`: a skill
blueprint becomes an action with placeholder type SCREENSHOT carrying
`skill_name` / `skill_parameters`; a primitive blueprint keeps its type; a
blueprint with neither is skipped (the per-action exception handler of the
source continues the loop). -/
def generate_actions_from_template (sm : SkillManager) (tpl : PlanTemplate)
    (slots : Params) (ctx : Option Params) : List Action :=
  tpl.actions.filterMap (fun ad =>
    let pd := process_action_definition sm ad slots ctx
    match pd.skill with
    | some sk =>
      some { type := ActionType.screenshot
             parameters := [("skill_name", PValue.str sk),
                            ("skill_parameters", PValue.dict (pd.parameters.getD []))]
             description := pd.description }
    | none =>
      match pd.type with
      | some t =>
        some { type := t, parameters := pd.parameters.getD [],
               description := pd.description }
      | none => none)

/-- The OPEN_APP plan template of `_initialize_templates`. -/
def open_app_template : PlanTemplate :=
  { intent_type := IntentType.open_app
    actions := [
      { type := some ActionType.screenshot
        description := "Capture d etat initial" },
      { skill := some "open_app"
        description := "Ouverture de l application \x7bapp_name\x7d" },
      { type := some ActionType.wait
        parameters := some [("duration", PValue.num 2)]
        description := "Attente du lancement de l application" }]
    estimated_duration := 5
    risk_level := "low" }

/-- The FOCUS_APP plan template. -/
def focus_app_template : PlanTemplate :=
  { intent_type := IntentType.focus_app
    actions := [
      { skill := some "focus_app"
        description := "Focus sur l application \x7bapp_name\x7d" }]
    estimated_duration := 2
    risk_level := "low" }

/-- The CLICK_TEXT plan template. -/
def click_text_template : PlanTemplate :=
  { intent_type := IntentType.click_text
    actions := [
      { type := some ActionType.screenshot
        description := "Capture pour localiser le texte" },
      { skill := some "click_text"
        description := "Clic sur \x7btext\x7d" }]
    estimated_duration := 3
    risk_level := "low" }

/-- The TYPE_TEXT plan template. -/
def type_text_template : PlanTemplate :=
  { intent_type := IntentType.type_text
    actions := [
      { skill := some "type_text"
        description := "Saisie du texte" }]
    estimated_duration := 2
    risk_level := "low" }

/-- The SAVE_FILE plan template. -/
def save_file_template : PlanTemplate :=
  { intent_type := IntentType.save_file
    actions := [
      { skill := some "save_file"
        description := "Sauvegarde du fichier" }]
    estimated_duration := 3
    risk_level := "medium"
    requires_confirmation := true }

/-- The WEB_SEARCH plan template. -/
def web_search_template : PlanTemplate :=
  { intent_type := IntentType.web_search
    actions := [
      { skill := some "open_app"
        parameters := some [("app_name", PValue.str "Google Chrome")]
        description := "Ouverture du navigateur" },
      { type := some ActionType.wait
        parameters := some [("duration", PValue.num 3)]
        description := "Attente du chargement du navigateur" },
      { skill := some "click_text"
        parameters := some [("text", PValue.str "address bar"),
                            ("fuzzy", PValue.boolean true)]
        description := "Clic sur la barre d adresse" },
      { skill := some "type_text"
        parameters := some
          [("text", PValue.str "https://www.google.com/search?q=\x7bquery\x7d")]
        description := "Saisie de l URL de recherche" },
      { type := some ActionType.key_press
        parameters := some [("key", PValue.str "enter")]
        description := "Validation de la recherche" }]
    estimated_duration := 8
    risk_level := "low" }

/-- The WRITE_TEXT_FILE plan template. -/
def write_text_file_template : PlanTemplate :=
  { intent_type := IntentType.write_text_file
    actions := [
      { skill := some "write_text_file"
        description := "Creation et ecriture du fichier texte" }]
    estimated_duration := 5
    risk_level := "medium"
    requires_confirmation := true }

/-- The template table built by `PlanGenerator._initialize_templates`: one
template per intent type except UNKNOWN. -/
def plan_templates : IntentType → Option PlanTemplate
  | IntentType.open_app => some open_app_template
  | IntentType.focus_app => some focus_app_template
  | IntentType.click_text => some click_text_template
  | IntentType.type_text => some type_text_template
  | IntentType.save_file => some save_file_template
  | IntentType.web_search => some web_search_template
  | IntentType.write_text_file => some write_text_file_template
  | IntentType.unknown => none

/-- True when the last already-kept action is a screenshot, as tested by
`optimized_actions[-1]` in `optimize_plan`. -/
def lastIsScreenshot (acc : List Action) : Bool :=
  match acc.getLast? with
  | some prev => prev.type = ActionType.screenshot
  | none => false

/-- The first loop of `PlanGenerator.optimize_plan`: skip an action whose type
is SCREENSHOT when the previously kept action also has type SCREENSHOT. -/
def optimize_dedup (actions : List Action) : List Action :=
  actions.foldl
    (fun acc a =>
      if a.type = ActionType.screenshot ∧ lastIsScreenshot acc then acc
      else acc ++ [a])
    []

/-- The body of `PlanGenerator._merge_similar_actions`: merge each pair of
consecutive TYPE_TEXT actions into one with concatenated text, skipping past
the pair (the merged action is not reconsidered). -/
def merge_similar_actions : List Action → List Action
  | [] => []
  | [a] => [a]
  | a :: b :: rest =>
    if a.type = ActionType.type_text ∧ b.type = ActionType.type_text then
      let combined := a.parameters.getStr "text" "" ++ b.parameters.getStr "text" ""
      { type := ActionType.type_text
        parameters := [("text", PValue.str combined)]
        description := "Saisie combinee de texte (" ++ toString combined.length ++
          " caracteres)" } :: merge_similar_actions rest
    else a :: merge_similar_actions (b :: rest)

/-- The body of `PlanGenerator._recalculate_duration`: WAIT contributes its
duration parameter (default 1), TYPE_TEXT contributes at least 1 and 0.01 per
character, everything else contributes 1. -/
def recalculate_duration (actions : List Action) : ℚ :=
  actions.foldl
    (fun tot a =>
      if a.type = ActionType.wait then tot + a.parameters.getNum "duration" 1
      else if a.type = ActionType.type_text then
        tot + max 1 (((a.parameters.getStr "text" "").length : ℚ) * (1 / 100))
      else tot + 1)
    0

/-- The body of `PlanGenerator.optimize_plan`: drop consecutive
SCREENSHOT-typed actions, merge consecutive TYPE_TEXT actions, and recompute
the estimated duration; id, intent, summary, confirmation flag and risk level
are carried over. -/
def optimize_plan (plan : Plan) : Plan :=
  let optimized_actions := optimize_dedup plan.actions
  let merged_actions := merge_similar_actions optimized_actions
  { plan with
    actions := merged_actions
    estimated_duration := recalculate_duration merged_actions }

/-- A skill manager that knows every skill, matching an agent with the standard
skills registered. -/
def demo_sm : SkillManager :=
  { get_skill := fun _ => some { validate_parameters := fun _ => true }
    get_skill_info := fun _ => true }

/-- The action list generated from the OPEN_APP template for the intent slots
`app_name = Notepad`. -/
def open_app_demo_actions : List Action :=
  generate_actions_from_template demo_sm open_app_template
    [("app_name", PValue.str "Notepad")] none

/-- The OPEN_APP plan as `generate_plan` assembles it for those slots. -/
def open_app_demo_plan : Plan :=
  { id := "p1"
    intent := { type := IntentType.open_app, confidence := 0.95
                slots := [("app_name", PValue.str "Notepad")]
                original_text := "ouvre notepad" }
    actions := open_app_demo_actions
    summary := "Ouvrir l application Notepad (en 3 etapes)"
    requires_confirmation := false
    estimated_duration := 5
    risk_level := "low" }

/-- True when the action invokes the named skill. -/
def hasSkillName (name : String) (a : Action) : Bool :=
  match a.parameters.get? "skill_name" with
  | some (PValue.str s) => s = name
  | _ => false

/-- C3, failing input: the OPEN_APP plan generated from its own template holds
a screenshot, the `open_app` skill invocation (typed with the placeholder
SCREENSHOT) and a wait; `optimize_plan` treats the skill invocation as a
consecutive duplicate screenshot and drops it, so the optimized plan no longer
invokes the skill at all — refuting that every skill-invocation action of the
input plan survives optimization. -/
theorem C3_optimize_drops_skill :
    open_app_demo_plan.actions.map (fun a => a.type) =
      [ActionType.screenshot, ActionType.screenshot, ActionType.wait] ∧
    (open_app_demo_plan.actions.filter (hasSkillName "open_app")).length = 1 ∧
    ((optimize_plan open_app_demo_plan).actions.filter
      (hasSkillName "open_app")).length = 0 ∧
    (optimize_plan open_app_demo_plan).actions.map (fun a => a.type) =
      [ActionType.screenshot, ActionType.wait] := by
  refine ⟨?_, ?_, ?_, ?_⟩ <;> decide

/-! Plan creation (plan_generator.py `generate_plan`,
planner_manager.py `PlannerManager.create_plan`). -/

/-- The `value` of an intent type, as in the Python string enum. -/
def IntentType.value : IntentType → String
  | IntentType.open_app => "open_app"
  | IntentType.focus_app => "focus_app"
  | IntentType.click_text => "click_text"
  | IntentType.type_text => "type_text"
  | IntentType.save_file => "save_file"
  | IntentType.web_search => "web_search"
  | IntentType.write_text_file => "write_text_file"
  | IntentType.unknown => "unknown"

/-- The body of `PlanGenerator._generate_plan_summary`: a per-intent-type
human-readable summary, with the step count appended when the plan has more
than one action. -/
def generate_plan_summary (intent : Intent) (actions : List Action) : String :=
  let base := match intent.type with
    | IntentType.open_app =>
      "Ouvrir l application " ++ intent.slots.getStr "app_name" "inconnue"
    | IntentType.focus_app =>
      "Mettre le focus sur " ++ intent.slots.getStr "app_name" "inconnue"
    | IntentType.click_text => "Cliquer sur " ++ intent.slots.getStr "text" "texte"
    | IntentType.type_text =>
      "Saisir le texte: " ++ (intent.slots.getStr "text" "").take 50 ++ "..."
    | IntentType.save_file => "Sauvegarder le fichier actuel"
    | IntentType.web_search =>
      "Rechercher " ++ intent.slots.getStr "query" "requete" ++ " sur Google"
    | IntentType.write_text_file => "Creer un fichier texte avec le contenu specifie"
    | IntentType.unknown => "Executer " ++ IntentType.value IntentType.unknown
  if 1 < actions.length then
    base ++ " (en " ++ toString actions.length ++ " etapes)"
  else base

/-- The relevant security settings; the filesystem resolution of a destination
path against the allow-list is abstracted as the oracle `path_is_allowed`
(`none` models a path-resolution exception, which forces confirmation). -/
structure SecurityConfig where
  require_confirmation_for_write : Bool
  path_is_allowed : String → Option Bool

/-- The body of `PlanGenerator._should_require_confirmation`: the template
default, the global write-confirmation policy for write intents, or a
destination path outside the allow-list. -/
def should_require_confirmation (cfg : SecurityConfig) (tpl : PlanTemplate)
    (slots : Params) : Bool :=
  if tpl.requires_confirmation then true
  else if tpl.intent_type = IntentType.save_file ∨
      tpl.intent_type = IntentType.write_text_file then
    if cfg.require_confirmation_for_write then true
    else
      let path := slots.getStr "path" ""
      if path ≠ "" then
        match cfg.path_is_allowed path with
        | some allowed => !allowed
        | none => true
      else false
  else false

/-- The body of `PlanGenerator._estimate_duration`: the template base plus
0.01 per character of text to type or content to write, plus 2 when a file
path is also being written. -/
def estimate_duration (tpl : PlanTemplate) (slots : Params) : ℚ :=
  if tpl.intent_type = IntentType.type_text then
    tpl.estimated_duration + ((slots.getStr "text" "").length : ℚ) * (1 / 100)
  else if tpl.intent_type = IntentType.write_text_file then
    let base := tpl.estimated_duration +
      ((slots.getStr "content" "").length : ℚ) * (1 / 100)
    if slots.getStr "path" "" ≠ "" then base + 2 else base
  else tpl.estimated_duration

/-- Exception classes of src/packages/common/errors.py relevant to planning,
with `PlanGenerationError` and `PlanValidationError` subclasses of
`PlannerError`. -/
inductive ErrClass where
  | desktopAgentError
  | plannerError
  | planGenerationError
  | planValidationError
deriving DecidableEq

/-- Python `isinstance(e, PlanGenerationError)`: `PlanGenerationError` has no
subclass, so only itself qualifies. -/
def ErrClass.isPlanGenerationError : ErrClass → Bool
  | ErrClass.planGenerationError => true
  | _ => false

/-- Python `isinstance(e, PlannerError)`: `PlannerError` and its two
subclasses qualify. -/
def ErrClass.isPlannerError : ErrClass → Bool
  | ErrClass.plannerError => true
  | ErrClass.planGenerationError => true
  | ErrClass.planValidationError => true
  | _ => false

/-- A raised exception: its class and its message. -/
structure AgentError where
  cls : ErrClass
  message : String
deriving DecidableEq

/-- The body of `PlanGenerator.generate_plan`: look up the template for the
intent type; with no template, raise `PlanGenerationError` (the inner message
`Pas de template pour ...` is re-wrapped by the method-level handler into
`Erreur generation plan: ...`, still a `PlanGenerationError`); otherwise build
the plan from the template. The fresh uuid4 plan id is passed as `newId`. -/
def generate_plan (sm : SkillManager) (cfg : SecurityConfig) (newId : String)
    (intent : Intent) (ctx : Option Params) : Except AgentError Plan :=
  match plan_templates intent.type with
  | none =>
    Except.error
      { cls := ErrClass.planGenerationError
        message := "Erreur generation plan: Pas de template pour " ++
          intent.type.value }
  | some tpl =>
    let actions := generate_actions_from_template sm tpl intent.slots ctx
    Except.ok
      { id := newId
        intent := intent
        actions := actions
        summary := generate_plan_summary intent actions
        requires_confirmation := should_require_confirmation cfg tpl intent.slots
        estimated_duration := estimate_duration tpl intent.slots
        risk_level := tpl.risk_level }

/-- The mutable statistics and cache of a `PlannerManager`. -/
structure PlannerState where
  plans_generated : Nat := 0
  plans_approved : Nat := 0
  plans_rejected : Nat := 0
  plan_cache : List (String × Plan) := []

/-- Python dict assignment on the plan cache. -/
def cacheSet (c : List (String × Plan)) (k : String) (v : Plan) :
    List (String × Plan) :=
  if (List.lookup k c).isSome then
    c.map (fun kv => if kv.1 = k then (k, v) else kv)
  else c ++ [(k, v)]

/-- The parts of the `create_plan` result dictionary the claims talk about. -/
structure CreateResult where
  plan : Plan
  validation : Validation
  security_check : GuardrailResults
  execution_decision : ExecutionDecision

/-- The body of `PlannerManager.create_plan`: bump `plans_generated`, generate
(and optionally optimize) the plan, validate it, run the guardrails, decide;
on approval bump `plans_approved` and cache the plan, otherwise bump
`plans_rejected`. Any exception — here only plan generation can raise — bumps
`plans_rejected` and is re-raised as a plain `PlannerError` wrapping the
message. -/
def create_plan (sm : SkillManager) (cfg : SecurityConfig)
    (rules : List GuardrailRule) (st : PlannerState) (newId : String)
    (intent : Intent) (ctx : Option Params) (optimize : Bool) :
    Except AgentError CreateResult × PlannerState :=
  let st1 := { st with plans_generated := st.plans_generated + 1 }
  match generate_plan sm cfg newId intent ctx with
  | Except.error e =>
    (Except.error
      { cls := ErrClass.plannerError
        message := "Erreur planification: " ++ e.message },
     { st1 with plans_rejected := st1.plans_rejected + 1 })
  | Except.ok plan0 =>
    let plan := if optimize then optimize_plan plan0 else plan0
    let validation := validate_plan sm plan
    let security := check_plan rules plan ctx
    let decision := make_execution_decision validation security
    let st2 := if decision.approved then
        { st1 with plans_approved := st1.plans_approved + 1
                   plan_cache := cacheSet st1.plan_cache plan.id plan }
      else { st1 with plans_rejected := st1.plans_rejected + 1 }
    (Except.ok
      { plan := plan, validation := validation, security_check := security,
        execution_decision := decision }, st2)

/-- A security configuration with the write-confirmation policy on. -/
def demo_cfg : SecurityConfig :=
  { require_confirmation_for_write := true
    path_is_allowed := fun _ => some true }

/-- Counterexample to C5 as stated: for an intent type without a template,
`create_plan` raises a plain `PlannerError` (the method-level handler wraps
the inner `PlanGenerationError` message), and an instance of `PlannerError`
is not an instance of `PlanGenerationError`; the rejected counter is bumped
and the cache stays empty as claimed. -/
theorem C5_counterexample :
    (create_plan demo_sm demo_cfg []
        ({} : PlannerState) "id1"
        { type := IntentType.unknown, confidence := 1, slots := [],
          original_text := "abracadabra" } none true).1 =
      Except.error
        { cls := ErrClass.plannerError
          message :=
            "Erreur planification: Erreur generation plan: Pas de template pour unknown" } ∧
    ErrClass.isPlanGenerationError ErrClass.plannerError = false ∧
    ErrClass.isPlannerError ErrClass.plannerError = true ∧
    (create_plan demo_sm demo_cfg [] ({} : PlannerState) "id1"
        { type := IntentType.unknown, confidence := 1, slots := [],
          original_text := "abracadabra" } none true).2.plans_rejected = 1 ∧
    (create_plan demo_sm demo_cfg [] ({} : PlannerState) "id1"
        { type := IntentType.unknown, confidence := 1, slots := [],
          original_text := "abracadabra" } none true).2.plan_cache = [] := by
  exact ⟨rfl, rfl, rfl, rfl, rfl⟩

/-- C5 amended: for an intent type with no plan template, `create_plan` fails
by raising a `PlannerError` whose message wraps the `PlanGenerationError`
message, increments plansRejected (and plansGenerated), and leaves the plan
cache unchanged. -/
theorem C5_no_template (sm : SkillManager) (cfg : SecurityConfig)
    (rules : List GuardrailRule) (st : PlannerState) (newId : String)
    (intent : Intent) (ctx : Option Params) (optimize : Bool)
    (h : plan_templates intent.type = none) :
    create_plan sm cfg rules st newId intent ctx optimize =
      (Except.error
        { cls := ErrClass.plannerError
          message := "Erreur planification: " ++
            ("Erreur generation plan: Pas de template pour " ++ intent.type.value) },
       { st with plans_generated := st.plans_generated + 1
                 plans_rejected := st.plans_rejected + 1 }) := by
  simp [create_plan, generate_plan, h]

/-- Witness for C5 amended at the UNKNOWN intent type, which has no template. -/
theorem C5_no_template_witness :
    create_plan demo_sm demo_cfg [] ({} : PlannerState) "id1"
        { type := IntentType.unknown, confidence := 1, slots := [],
          original_text := "abracadabra" } none false =
      (Except.error
        { cls := ErrClass.plannerError
          message := "Erreur planification: " ++
            ("Erreur generation plan: Pas de template pour " ++
              IntentType.unknown.value) },
       { plans_generated := 1, plans_approved := 0, plans_rejected := 1,
         plan_cache := [] }) :=
  C5_no_template demo_sm demo_cfg [] ({} : PlannerState) "id1"
    { type := IntentType.unknown, confidence := 1, slots := [],
      original_text := "abracadabra" } none false rfl

end DesktopAgent
